import Mathlib

/-!
Shallow embedding of the OTTO back-end core (conversational retrieval-augmented
orchestrator and knowledge index manager) together with proofs of the claims
made by its specification.

Embedding conventions:
* Python dictionaries holding fixed keys become Lean structures.
* Firestore (the external Conversation Store) is modelled as an association
  list keyed by `(user_id, conversation_id)`; `doc_ref.set` is replace-or-insert.
* The persisted Chroma collections become an association list from collection
  name to the list of stored documents; `shutil.rmtree` is entry removal.
* Timestamps are carried as already-formatted strings (Python always derives
  ids and stored values from `strftime`/`isoformat` strings), passed in
  explicitly where the Python code calls `datetime.now()`.
* Relevance scores (Python floats) are modelled as rationals; the claims only
  depend on order comparisons against the 0.7 threshold.
* External providers (embedding similarity, Gemini generation) are parameters:
  similarity ranking is a function argument, and the LLM manager is a function
  from the recorded call (`LlmCall`, capturing which template was invoked and
  with which arguments) to a result.
-/

namespace Otto

/-- A document stored in a persisted collection: its text content and the
`source` label from its metadata (`None` when the metadata lacks the field). -/
structure Doc where
  content : String
  source : Option String
  deriving DecidableEq, Repr

/-- One formatted search hit, as built by `VectorStoreManager.search`:
`{"content": ..., "metadata": ..., "distance": score}`. -/
structure Chunk where
  content : String
  source : Option String
  distance : Rat
  deriving DecidableEq, Repr

/-- Result dictionary of `VectorStoreManager.search`:
`{"success": True, "results": ...}` or `{"success": False, "error": ...}`. -/
inductive SearchResult where
  | ok (results : List Chunk)
  | err (msg : String)
  deriving DecidableEq, Repr

/-- State of a `VectorStoreManager`: the persisted collection directories under
`base_dir` (name ↦ stored documents) and the in-memory `self.stores` cache
(name ↦ loaded handle, `None` cached for missing stores). -/
structure VSM where
  disk : List (String × List Doc)
  cache : List (String × Option (List Doc))
  deriving DecidableEq, Repr

/-- Look up a persisted collection directory by name. -/
def diskFind (disk : List (String × List Doc)) (name : String) : Option (List Doc) :=
  (disk.find? (fun e => e.1 == name)).map (·.2)

/-- `shutil.rmtree` of a collection directory. -/
def diskErase (disk : List (String × List Doc)) (name : String) : List (String × List Doc) :=
  disk.filter (fun e => !(e.1 == name))

/-- `self.stores[name] = v` (replace-or-insert into the cache). -/
def cacheSet (cache : List (String × Option (List Doc))) (name : String)
    (v : Option (List Doc)) : List (String × Option (List Doc)) :=
  cache.filter (fun e => !(e.1 == name)) ++ [(name, v)]

/-- `VectorStoreManager._load_store`: opening a `Chroma` handle on an existing
persisted directory yields its content; a missing directory caches `None`. -/
def loadStore (vsm : VSM) (name : String) : VSM :=
  { vsm with cache := cacheSet vsm.cache name (diskFind vsm.disk name) }

/-- `VectorStoreManager.get_store`: consult the cache, lazily loading from the
persisted directory on first reference. -/
def getStore (vsm : VSM) (name : String) : Option (List Doc) × VSM :=
  match vsm.cache.find? (fun e => e.1 == name) with
  | some e => (e.2, vsm)
  | none => (diskFind vsm.disk name, loadStore vsm name)

/-- Error message of the Python `ValueError` raised on an empty corpus (the
failure the spec names `EmptyCorpusError`). -/
def emptyCorpusMsg (documentsDir : String) : String :=
  "Nenhum documento encontrado em " ++ documentsDir

/-- `VectorStoreManager.create_or_load`. The source directory argument is
modelled by the list of documents `_load_documents` yields from it (already
loaded and chunk-split), `none` standing for `documents_dir=None`. Returns the
store (or the raised error) together with the updated manager state. -/
def createOrLoad (vsm : VSM) (name : String) (documentsDir : Option (List Doc))
    (dirName : String) : Except String (Option (List Doc)) × VSM :=
  match documentsDir with
  | none =>
    -- both the early-return branch and the `if not documents_dir` branch
    -- return `self.get_store(name)`; without a directory and without a
    -- persisted store the function raises.
    if (diskFind vsm.disk name).isNone then
      (.error ("Vector store " ++ name ++ " não existe e nenhum diretório foi fornecido"), vsm)
    else
      let (s, vsm') := getStore vsm name
      (.ok s, vsm')
  | some documents =>
    if documents.isEmpty then
      (.error (emptyCorpusMsg dirName), vsm)
    else
      -- destructive rebuild: remove the old persisted directory, then create
      let disk1 := if (diskFind vsm.disk name).isSome then diskErase vsm.disk name else vsm.disk
      let disk2 := disk1 ++ [(name, documents)]
      (.ok (some documents), { disk := disk2, cache := cacheSet vsm.cache name (some documents) })

/-- The external Embedding Provider's similarity ranking: given the stored
documents, a query and `k`, the scored candidates `similarity_search_with_score`
returns. -/
abbrev Sim : Type := List Doc → String → Nat → List (Doc × Rat)

/-- `VectorStoreManager.search`: semantic search over a named collection. -/
def search (vsm : VSM) (sim : Sim) (collectionName query : String) (nResults : Nat) :
    SearchResult × VSM :=
  let gs := getStore vsm collectionName
  match gs.1 with
  | none => (.err ("Collection '" ++ collectionName ++ "' não encontrada"), gs.2)
  | some docs =>
    let scored := sim docs query nResults
    (.ok (scored.map (fun ds => { content := ds.1.content, source := ds.1.source, distance := ds.2 })), gs.2)

/-- One formatted history entry handed to generation (`{"role", "content"}`). -/
structure ChatMsg where
  role : String
  content : String
  deriving DecidableEq, Repr

/-- A call into the `LLMManager` generation interface, recording which template
was invoked and with which arguments (the spec's observable provider
invocation). -/
inductive LlmCall where
  | withKnowledge (prompt knowledgeContext : String) (history : List ChatMsg)
  | chatResponse (prompt : String) (history : List ChatMsg) (chatType : String)
  deriving DecidableEq, Repr

/-- Result of a generation call: `{"success": True, "content": ...}` or
`{"success": False, "error": ...}`. -/
inductive LlmResult where
  | ok (content : String)
  | err (msg : String)
  deriving DecidableEq, Repr

/-- The external Generation Provider, as seen through `LLMManager`. -/
abbrev LLM : Type := LlmCall → LlmResult

/-- Response dictionary returned by `_handle_chat_geral`, extended with the
`llmCall` the handler issued (ghost field recording the provider invocation). -/
structure ChatResponse where
  content : String
  rtype : String
  knowledgeUsed : Bool
  sources : List String
  error : Option String
  llmCall : LlmCall
  deriving DecidableEq, Repr

/-- The knowledge block: passing chunk texts joined with a fixed marker. -/
def knowledgeBlock (relevantResults : List Chunk) : String :=
  String.intercalate "\n\n"
    (relevantResults.map (fun result => "Informação relevante: " ++ result.content))

/-- Source labels of the chunks, with the fixed fallback label where the chunk
metadata lacks a `source` field. -/
def sourceLabels (relevantResults : List Chunk) : List String :=
  relevantResults.map (fun result => result.source.getD "Base de conhecimento")

/-- The fixed user-facing apology returned when generation fails. -/
def apologyMsg : String :=
  "Desculpe, ocorreu um erro ao processar sua mensagem. Tente novamente."

/-- `OTTOAgent._handle_chat_geral`: search the `main` collection, gate the
knowledge, call the matching generation template. NOTE (faithful to the
source): the agent keeps every returned result — `relevant_results =
search_result["results"]  # Em tese` — applying no distance threshold. -/
def handleChatGeralAgent (vsm : VSM) (sim : Sim) (llm : LLM) (message : String)
    (contextHistory : List ChatMsg) : ChatResponse × VSM :=
  let sr := search vsm sim "main" message 5
  let vsm' := sr.2
  let gate : String × List String × Bool :=
    match sr.1 with
    | .ok results =>
      if !results.isEmpty then
        let relevantResults := results
        if !relevantResults.isEmpty then
          (knowledgeBlock relevantResults, sourceLabels relevantResults, true)
        else ("", [], false)
      else ("", [], false)
    | .err _ => ("", [], false)
  let call : LlmCall :=
    if gate.2.2 then .withKnowledge message gate.1 contextHistory
    else .chatResponse message contextHistory "general"
  match llm call with
  | .ok content =>
    ({ content := content, rtype := "chat_geral", knowledgeUsed := gate.2.2,
       sources := gate.2.1, error := none, llmCall := call }, vsm')
  | .err e =>
    ({ content := apologyMsg, rtype := "error", knowledgeUsed := false,
       sources := [], error := some e, llmCall := call }, vsm')

/-- `ChatPrincipal._handle_chat_geral` (the legacy path in `funcoes/chat.py`):
identical to the agent version except that results are filtered by the
relevance threshold `result.get("distance", 1.0) < 0.7`. -/
def handleChatGeralChat (vsm : VSM) (sim : Sim) (llm : LLM) (message : String)
    (contextHistory : List ChatMsg) : ChatResponse × VSM :=
  let sr := search vsm sim "main" message 5
  let vsm' := sr.2
  let gate : String × List String × Bool :=
    match sr.1 with
    | .ok results =>
      if !results.isEmpty then
        let relevantResults := results.filter (fun result => result.distance < mkRat 7 10)
        if !relevantResults.isEmpty then
          (knowledgeBlock relevantResults, sourceLabels relevantResults, true)
        else ("", [], false)
      else ("", [], false)
    | .err _ => ("", [], false)
  let call : LlmCall :=
    if gate.2.2 then .withKnowledge message gate.1 contextHistory
    else .chatResponse message contextHistory "general"
  match llm call with
  | .ok content =>
    ({ content := content, rtype := "chat_geral", knowledgeUsed := gate.2.2,
       sources := gate.2.1, error := none, llmCall := call }, vsm')
  | .err _ =>
    ({ content := apologyMsg, rtype := "error", knowledgeUsed := false,
       sources := [], error := none, llmCall := call }, vsm')

/-- Metadata attached to a persisted assistant turn (the dictionary the agent
passes to `add_message_with_intent`, augmented there with intent fields). -/
structure TurnMeta where
  userId : String
  chatType : String
  knowledgeUsed : Bool
  sources : List String
  detectedIntent : Option String
  intentConfidence : Option Rat
  deriving DecidableEq, Repr

/-- A stored conversation message (`{"timestamp", "role", "content",
"metadata"}`); user messages carry no metadata. -/
structure StoredMsg where
  timestamp : String
  role : String
  content : String
  metadata : Option TurnMeta
  deriving DecidableEq, Repr

/-- A conversation document as persisted by `FirebaseMemoryManager`. -/
structure Conversation where
  conversationId : String
  title : String
  ctype : String
  createdAt : String
  updatedAt : String
  userId : String
  messages : List StoredMsg
  messageCount : Nat
  deriving DecidableEq, Repr

/-- The Firestore database: `users/{user_id}/conversations/{conversation_id}`
documents, modelled as an association list keyed by the pair of ids. -/
abbrev DB : Type := List ((String × String) × Conversation)

/-- Read the document at `users/{u}/conversations/{c}`. -/
def DB.get (db : DB) (u c : String) : Option Conversation :=
  (db.find? (fun e => e.1.1 == u && e.1.2 == c)).map (·.2)

/-- `doc_ref.set` / full-document `update`: replace-or-insert at a path. -/
def DB.set (db : DB) (u c : String) (conv : Conversation) : DB :=
  db.filter (fun e => !(e.1.1 == u && e.1.2 == c)) ++ [((u, c), conv)]

/-- `FirebaseMemoryManager.max_messages_per_conversation`. -/
def maxMessagesPerConversation : Nat := 1000

/-- `FirebaseMemoryManager._find_user_by_conversation`: scan every user for a
conversation with the given id, returning the first owner found. -/
def findUserByConversation (db : DB) (cid : String) : Option String :=
  (db.find? (fun e => e.1.2 == cid)).map (fun e => e.1.1)

/-- Resolution of the optional `user_id` argument shared by the memory-manager
read paths: Python's `if not user_id:` treats both `None` and the empty string
as absent and falls back to the cross-user scan. -/
def resolveUserId (db : DB) (cid : String) (userId : Option String) : Option String :=
  if userId.getD "" == "" then findUserByConversation db cid else userId

/-- `FirebaseMemoryManager.create_conversation`: the conversation id is the
formatted creation timestamp (`now.strftime("%Y-%m-%d_%H-%M-%S")`, passed here
already formatted); the document is written with `doc_ref.set`. -/
def createConversation (db : DB) (userId : String) (conversationTitle : Option String)
    (conversationType : String) (now : String) : String × DB :=
  let conversationId := now
  let title := conversationTitle.getD ("Conversa " ++ now)
  let conv : Conversation :=
    { conversationId := conversationId, title := title, ctype := conversationType,
      createdAt := now, updatedAt := now, userId := userId,
      messages := [], messageCount := 0 }
  (conversationId, DB.set db userId conversationId conv)

/-- The metadata projection `get_conversation_metadata` builds (everything but
the messages). -/
structure ConvMeta where
  conversationId : String
  title : String
  ctype : String
  createdAt : String
  updatedAt : String
  userId : String
  messageCount : Nat
  deriving DecidableEq, Repr

/-- `FirebaseMemoryManager.get_conversation_metadata`. -/
def getConversationMetadata (db : DB) (cid : String) (userId : Option String) :
    Option ConvMeta :=
  match resolveUserId db cid userId with
  | none => none
  | some u =>
    (DB.get db u cid).map (fun conv =>
      { conversationId := conv.conversationId, title := conv.title, ctype := conv.ctype,
        createdAt := conv.createdAt, updatedAt := conv.updatedAt,
        userId := conv.userId, messageCount := conv.messageCount })

/-- `FirebaseMemoryManager.get_conversation_history` with `format_for_llm=True`
(the only mode the agent uses): take the `max_messages` most recent stored
messages (`messages[-max_messages:]`, skipped when `max_messages` is falsy) and
reduce each to its role/content pair. The function only reads the store; the
unchanged database is returned alongside to make that explicit. -/
def getConversationHistory (db : DB) (cid : String) (userId : Option String)
    (maxMessages : Nat) : List ChatMsg × DB :=
  let result :=
    match resolveUserId db cid userId with
    | none => []
    | some u =>
      match DB.get db u cid with
      | none => []
      | some conv =>
        let messages := conv.messages
        let messages :=
          if maxMessages ≠ 0 ∧ messages.length > maxMessages then
            messages.drop (messages.length - maxMessages)
          else messages
        messages.map (fun msg => { role := msg.role, content := msg.content })
  (result, db)

/-- `FirebaseMemoryManager.add_message_with_intent`: append the user/assistant
pair, evict to the per-conversation cap (oldest first), and update the document
with the new list, its length as `message_count`, and `updated_at`. -/
def addMessageWithIntent (db : DB) (conversationId userMessage assistantResponse : String)
    (detectedIntent : String) (intentConfidence : Rat) (metadata : TurnMeta)
    (now : String) : Bool × DB :=
  let userId := metadata.userId
  match DB.get db userId conversationId with
  | none => (false, db)
  | some conv =>
    let messageMetadata :=
      { metadata with
        detectedIntent := if detectedIntent == "" then metadata.detectedIntent
                          else some detectedIntent,
        intentConfidence := some intentConfidence }
    let userMsg : StoredMsg :=
      { timestamp := now, role := "user", content := userMessage, metadata := none }
    let assistantMsg : StoredMsg :=
      { timestamp := now, role := "assistant", content := assistantResponse,
        metadata := some messageMetadata }
    let messages := conv.messages ++ [userMsg, assistantMsg]
    let messages :=
      if messages.length > maxMessagesPerConversation then
        messages.drop (messages.length - maxMessagesPerConversation)
      else messages
    let conv' := { conv with messages := messages, messageCount := messages.length,
                             updatedAt := now }
    (true, DB.set db userId conversationId conv')

/-- Result of `OTTOAgent._resolve_conversation` (the `success` field of the
Python dictionary is constantly true on every reachable return). -/
structure Resolved where
  conversationId : String
  isNew : Bool
  deriving DecidableEq, Repr

/-- `OTTOAgent._resolve_conversation`: reuse a supplied id whose metadata is
found; otherwise (unknown id, or no id — Python's `if conversation_id:` also
treats the empty string as absent) create a new conversation titled
"Nova Conversa". `now` is the creation timestamp used if a conversation is
created. -/
def resolveConversation (db : DB) (userId : String) (conversationId : Option String)
    (now : String) : Resolved × DB :=
  let createNew : Resolved × DB :=
    let cc := createConversation db userId (some "Nova Conversa") "chat" now
    ({ conversationId := cc.1, isNew := true }, cc.2)
  match conversationId with
  | none => createNew
  | some cid =>
    if cid == "" then createNew
    else
      match getConversationMetadata db cid (some userId) with
      | some _ => ({ conversationId := cid, isNew := false }, db)
      | none => createNew

/-- `OTTOAgent._get_conversation_context`: the 10 most recent turns formatted
for the LLM, plus their count. -/
def getConversationContext (db : DB) (userId conversationId : String) :
    (List ChatMsg × Nat) × DB :=
  let gh := getConversationHistory db conversationId (some userId) 10
  ((gh.1, gh.1.length), gh.2)

/-- The structured response of `OTTOAgent.process_query` on its non-exception
path (`success` is `True`; `metadata` fields are inlined). -/
structure ProcessResult where
  success : Bool
  content : String
  conversationId : String
  userId : String
  isNewConversation : Bool
  knowledgeUsed : Bool
  sources : List String
  responseType : String
  deriving DecidableEq, Repr

/-- Python's `list(set(xs))`: each element at most once (iteration order of the
set is unspecified; the claims only concern membership and uniqueness, which
`List.dedup` shares). -/
def pySetDedup (xs : List String) : List String := xs.dedup

/-- `OTTOAgent.process_query`: resolve the conversation, assemble context, run
the retrieval-augmented chat handler, persist the turn (a failed save is only
logged), and return the structured response. `now` stands for the
`datetime.now()` readings of the call. -/
def processQuery (db : DB) (vsm : VSM) (sim : Sim) (llm : LLM)
    (userId message : String) (conversationId : Option String) (now : String) :
    ProcessResult × DB × VSM :=
  let rc := resolveConversation db userId conversationId now
  let resolved := rc.1
  let cc := getConversationContext rc.2 userId resolved.conversationId
  let hc := handleChatGeralAgent vsm sim llm message cc.1.1
  let response := hc.1
  let meta : TurnMeta :=
    { userId := userId, chatType := "general",
      knowledgeUsed := response.knowledgeUsed,
      sources := pySetDedup response.sources,
      detectedIntent := none, intentConfidence := none }
  let am :=
    addMessageWithIntent cc.2 resolved.conversationId message response.content
      "chat_geral" 1 meta now
  ({ success := true, content := response.content,
     conversationId := resolved.conversationId, userId := userId,
     isNewConversation := resolved.isNew,
     knowledgeUsed := response.knowledgeUsed,
     sources := pySetDedup response.sources,
     responseType := response.rtype }, am.2, hc.2)

/-- The conversation document `_resolve_conversation`'s creation path writes:
a fresh conversation with the default title "Nova Conversa", id equal to the
creation timestamp, and no messages. -/
def novaConversa (userId now : String) : Conversation :=
  { conversationId := now, title := "Nova Conversa", ctype := "chat",
    createdAt := now, updatedAt := now, userId := userId,
    messages := [], messageCount := 0 }

/-! ### Concrete fixtures
Small concrete instances used by witnesses and counterexamples. -/

/-- A document with a source label. -/
def docAlpha : Doc := { content := "alpha", source := some "s1" }

/-- A second document sharing `docAlpha`'s source label. -/
def docAlpha2 : Doc := { content := "alpha2", source := some "s1" }

/-- A document whose metadata lacks a source field. -/
def docBeta : Doc := { content := "beta", source := none }

/-- A similarity ranking scoring every stored document at distance 0.9. -/
def simNine : Sim := fun docs _query _k => docs.map (fun d => (d, mkRat 9 10))

/-- A similarity ranking scoring every stored document at distance 0.5. -/
def simHalf : Sim := fun docs _query _k => docs.map (fun d => (d, mkRat 1 2))

/-- A generation provider that always succeeds. -/
def llmEcho : LLM := fun _call => .ok "resposta"

/-- A generation provider that always fails. -/
def llmDown : LLM := fun _call => .err "boom"

/-- A vector store whose `main` collection holds one document. -/
def vsmMain : VSM := { disk := [("main", [docAlpha])], cache := [] }

/-- A `main` collection with a duplicated source label and a missing one. -/
def vsmMulti : VSM := { disk := [("main", [docAlpha, docAlpha2, docBeta])], cache := [] }

/-- A vector store with nothing persisted. -/
def vsmEmpty : VSM := { disk := [], cache := [] }

/-- The empty conversation store. -/
def dbEmpty : DB := []

/-- A stored user message. -/
def msgU : StoredMsg := { timestamp := "t0", role := "user", content := "oi", metadata := none }

/-- A stored assistant message. -/
def msgA : StoredMsg :=
  { timestamp := "t0", role := "assistant", content := "olá", metadata := none }

/-- A concrete persisted conversation of user `u1`. -/
def convFix : Conversation :=
  { conversationId := "c1", title := "T", ctype := "chat", createdAt := "t0",
    updatedAt := "t0", userId := "u1", messages := [msgU, msgA], messageCount := 2 }

/-- A store holding only `convFix` under user `u1`. -/
def dbOne : DB := [(("u1", "c1"), convFix)]

/-- A store where conversation "c2" exists only under user `u2`. -/
def dbOther : DB := [(("u2", "c2"), convFix)]

/-- The turn metadata the agent builds for user `u1` without knowledge. -/
def metaFix : TurnMeta :=
  { userId := "u1", chatType := "general", knowledgeUsed := false, sources := [],
    detectedIntent := none, intentConfidence := none }

/-! ### Helper lemmas -/

theorem find?_filter_of_imp {α : Type} (l : List α) (p q : α → Bool)
    (h : ∀ x, p x = true → q x = true) : (l.filter q).find? p = l.find? p := by
  induction l with
  | nil => rfl
  | cons x t ih =>
    by_cases hq : q x = true
    · rw [List.filter_cons_of_pos hq]
      by_cases hp : p x = true
      · rw [List.find?_cons_of_pos _ hp, List.find?_cons_of_pos _ hp]
      · rw [List.find?_cons_of_neg _ hp, List.find?_cons_of_neg _ hp, ih]
    · have hp : ¬ p x = true := fun hp => hq (h x hp)
      rw [List.filter_cons_of_neg hq, List.find?_cons_of_neg _ hp, ih]

theorem DB.get_set_self (db : DB) (u c : String) (conv : Conversation) :
    DB.get (DB.set db u c conv) u c = some conv := by
  have hnone : (db.filter (fun e => !(e.1.1 == u && e.1.2 == c))).find?
      (fun e => e.1.1 == u && e.1.2 == c) = none := by
    rw [List.find?_eq_none]
    intro x hx
    rcases List.mem_filter.mp hx with ⟨_, hq⟩
    intro hp
    rw [hp] at hq
    exact absurd hq (by simp)
  unfold DB.get DB.set
  rw [List.find?_append, hnone]
  rw [List.find?_cons_of_pos _ (by simp)]
  rfl

theorem DB.get_set_ne (db : DB) {u c u' c' : String} (conv : Conversation)
    (h : (u == u' && c == c') = false) :
    DB.get (DB.set db u c conv) u' c' = DB.get db u' c' := by
  unfold DB.get DB.set
  rw [List.find?_append]
  have hsingle :
      (([((u, c), conv)] : DB).find? (fun e => e.1.1 == u' && e.1.2 == c')) = none := by
    rw [List.find?_cons_of_neg]
    · rfl
    · show ¬ (u == u' && c == c') = true
      rw [h]
      exact Bool.false_ne_true
  rw [hsingle]
  rw [find?_filter_of_imp]
  · cases hfind : db.find? (fun e => e.1.1 == u' && e.1.2 == c') <;> rfl
  · intro x hp
    rcases (show x.1.1 = u' ∧ x.1.2 = c' by simpa using hp) with ⟨e1, e2⟩
    rw [Bool.not_eq_true', e1, e2]
    rcases Bool.and_eq_false_iff.mp h with hh | hh
    · exact Bool.and_eq_false_iff.mpr (Or.inl (beq_eq_false_iff_ne.mpr
        (fun e => (beq_eq_false_iff_ne.mp hh) e.symm)))
    · exact Bool.and_eq_false_iff.mpr (Or.inr (beq_eq_false_iff_ne.mpr
        (fun e => (beq_eq_false_iff_ne.mp hh) e.symm)))

theorem find?_diskErase_self (disk : List (String × List Doc)) (name : String) :
    (diskErase disk name).find? (fun e => e.1 == name) = none := by
  rw [List.find?_eq_none]
  intro x hx
  rcases List.mem_filter.mp hx with ⟨_, hq⟩
  intro hp
  rw [hp] at hq
  exact absurd hq (by simp)

theorem getLast?_drop {α : Type} (l : List α) (k : Nat) (h : k < l.length) :
    (l.drop k).getLast? = l.getLast? := by
  induction l generalizing k with
  | nil => simp at h
  | cons x xs ih =>
    cases k with
    | zero => rfl
    | succ k =>
      have hk : k < xs.length := by simpa using h
      have hne : xs ≠ [] := by
        intro e
        rw [e] at hk
        simp at hk
      rw [List.drop_succ_cons, ih k hk]
      cases xs with
      | nil => exact absurd rfl hne
      | cons y ys => rw [List.getLast?_cons_cons]

/-! ### Claim theorems -/

/-- C2: building a collection from a source directory yielding zero documents
fails with the empty-corpus error, no collection is created, and the whole
vector-store state — in particular any previously persisted collection of the
same name — is left unchanged (the failure precedes the destructive removal). -/
theorem empty_corpus_build_fails (vsm : VSM) (name dirName : String) :
    (createOrLoad vsm name (some []) dirName).1 = .error (emptyCorpusMsg dirName) ∧
    (createOrLoad vsm name (some []) dirName).2 = vsm :=
  ⟨rfl, rfl⟩

/-- C3: rebuilding a collection whose name already persists removes the old
persisted directory entirely and writes the new one, so the final persisted
state is the one of a fresh build from the same documents — the rebuilt
collection holds exactly the newly ingested documents, with no accumulation of
old chunks. -/
theorem rebuild_is_destructive_and_idempotent (vsm : VSM) (name dirName : String)
    (docs : List Doc) (hne : docs ≠ []) (hold : (diskFind vsm.disk name).isSome = true) :
    (createOrLoad vsm name (some docs) dirName).1 = .ok (some docs) ∧
    (createOrLoad vsm name (some docs) dirName).2.disk
      = diskErase vsm.disk name ++ [(name, docs)] ∧
    diskFind (createOrLoad vsm name (some docs) dirName).2.disk name = some docs ∧
    (createOrLoad vsm name (some docs) dirName).2.disk
      = (createOrLoad { disk := diskErase vsm.disk name, cache := vsm.cache } name
          (some docs) dirName).2.disk := by
  have hie : docs.isEmpty = false := by simp [hne]
  refine ⟨by simp [createOrLoad, hie], by simp [createOrLoad, hie, hold], ?_, ?_⟩
  · simp only [createOrLoad, hie, hold, Bool.false_eq_true, if_false, if_true]
    unfold diskFind
    rw [List.find?_append, find?_diskErase_self]
    rw [List.find?_cons_of_pos _ (by simp)]
    rfl
  · have herased : (diskFind (diskErase vsm.disk name) name).isSome = false := by
      unfold diskFind
      rw [find?_diskErase_self]
      rfl
    simp [createOrLoad, hie, hold, herased]

/-- Witness for C3: rebuilding the persisted `main` collection over `docAlpha`
from the single document `docBeta`. -/
theorem rebuild_is_destructive_and_idempotent_witness :
    ([docBeta] ≠ ([] : List Doc)) ∧
    ((diskFind vsmMain.disk "main").isSome = true) ∧
    ((createOrLoad vsmMain "main" (some [docBeta]) "dir").1 = .ok (some [docBeta]) ∧
     (createOrLoad vsmMain "main" (some [docBeta]) "dir").2.disk
       = diskErase vsmMain.disk "main" ++ [("main", [docBeta])] ∧
     diskFind (createOrLoad vsmMain "main" (some [docBeta]) "dir").2.disk "main"
       = some [docBeta] ∧
     (createOrLoad vsmMain "main" (some [docBeta]) "dir").2.disk
       = (createOrLoad { disk := diskErase vsmMain.disk "main", cache := vsmMain.cache }
           "main" (some [docBeta]) "dir").2.disk) :=
  ⟨by decide, by decide,
    rebuild_is_destructive_and_idempotent vsmMain "main" "dir" [docBeta]
      (by decide) (by decide)⟩

/-- C1 (code bug at `agent.py`): at a search outcome whose only chunk scores
distance 0.9 — failing the 0.7 relevance threshold — the agent's
`_handle_chat_geral` (the live `process_query` path) still sets
`knowledge_used = true` and invokes the with-knowledge template, because it
keeps every returned result unfiltered; the legacy `ChatPrincipal` handler at
the same input applies the threshold and gates knowledge off, as the claim
states. -/
theorem agent_gate_ignores_threshold :
    (¬ (mkRat 9 10 < mkRat 7 10)) ∧
    (handleChatGeralAgent vsmMain simNine llmEcho "q" []).1.knowledgeUsed = true ∧
    (handleChatGeralAgent vsmMain simNine llmEcho "q" []).1.llmCall
      = .withKnowledge "q" "Informação relevante: alpha" [] ∧
    (processQuery dbEmpty vsmMain simNine llmEcho "u1" "q" none
        "2025-01-01_00-00-00").1.knowledgeUsed = true ∧
    (handleChatGeralChat vsmMain simNine llmEcho "q" []).1.knowledgeUsed = false ∧
    (handleChatGeralChat vsmMain simNine llmEcho "q" []).1.llmCall
      = .chatResponse "q" [] "general" := by
  decide

/-- C9: after every successful `add_message_with_intent` the stored
conversation satisfies `message_count = messages.length`, holds at most the
configured cap of 1000 messages, and its message list is the suffix of the old
list extended by the new user/assistant pair — the oldest messages are dropped
first and the surviving ones keep their original order. -/
theorem turn_count_invariant_and_eviction (db : DB)
    (cid userMessage assistantResponse detectedIntent : String) (intentConfidence : Rat)
    (metadata : TurnMeta) (now : String) (conv : Conversation)
    (hget : DB.get db metadata.userId cid = some conv) :
    (addMessageWithIntent db cid userMessage assistantResponse detectedIntent
        intentConfidence metadata now).1 = true ∧
    (let messageMetadata : TurnMeta :=
      { metadata with
        detectedIntent := if detectedIntent == "" then metadata.detectedIntent
                          else some detectedIntent,
        intentConfidence := some intentConfidence }
     let userMsg : StoredMsg :=
       { timestamp := now, role := "user", content := userMessage, metadata := none }
     let assistantMsg : StoredMsg :=
       { timestamp := now, role := "assistant", content := assistantResponse,
         metadata := some messageMetadata }
     let newMessages := conv.messages ++ [userMsg, assistantMsg]
     let kept := newMessages.drop (newMessages.length - maxMessagesPerConversation)
     DB.get (addMessageWithIntent db cid userMessage assistantResponse detectedIntent
         intentConfidence metadata now).2 metadata.userId cid
       = some { conv with messages := kept, messageCount := kept.length, updatedAt := now } ∧
     kept.length ≤ maxMessagesPerConversation ∧
     newMessages.take (newMessages.length - maxMessagesPerConversation) ++ kept
       = newMessages) := by
  simp only [addMessageWithIntent, hget]
  set userMsg : StoredMsg :=
    { timestamp := now, role := "user", content := userMessage, metadata := none } with hu
  set assistantMsg : StoredMsg :=
    { timestamp := now, role := "assistant", content := assistantResponse,
      metadata := some { metadata with
        detectedIntent := if detectedIntent == "" then metadata.detectedIntent
                          else some detectedIntent,
        intentConfidence := some intentConfidence } } with ha
  set newMessages := conv.messages ++ [userMsg, assistantMsg] with hm
  by_cases hlen : newMessages.length > maxMessagesPerConversation
  · simp only [if_pos hlen]
    refine ⟨trivial, ?_, ?_, List.take_append_drop _ _⟩
    · rw [DB.get_set_self]
    · rw [List.length_drop]
      omega
  · simp only [if_neg hlen]
    have hz : newMessages.length - maxMessagesPerConversation = 0 := by omega
    rw [hz, List.drop_zero, List.take_zero, List.nil_append]
    refine ⟨trivial, ?_, by omega, rfl⟩
    rw [DB.get_set_self]

/-- Witness for C9: appending a turn to the concrete conversation `convFix`. -/
theorem turn_count_invariant_and_eviction_witness :
    DB.get dbOne metaFix.userId "c1" = some convFix ∧
    ((addMessageWithIntent dbOne "c1" "q" "resp" "chat_geral" 1 metaFix "t1").1 = true ∧
     (let messageMetadata : TurnMeta :=
       { metaFix with
         detectedIntent := if "chat_geral" == "" then metaFix.detectedIntent
                           else some "chat_geral",
         intentConfidence := some 1 }
      let userMsg : StoredMsg :=
        { timestamp := "t1", role := "user", content := "q", metadata := none }
      let assistantMsg : StoredMsg :=
        { timestamp := "t1", role := "assistant", content := "resp",
          metadata := some messageMetadata }
      let newMessages := convFix.messages ++ [userMsg, assistantMsg]
      let kept := newMessages.drop (newMessages.length - maxMessagesPerConversation)
      DB.get (addMessageWithIntent dbOne "c1" "q" "resp" "chat_geral" 1 metaFix "t1").2
          metaFix.userId "c1"
        = some { convFix with messages := kept, messageCount := kept.length,
                              updatedAt := "t1" } ∧
      kept.length ≤ maxMessagesPerConversation ∧
      newMessages.take (newMessages.length - maxMessagesPerConversation) ++ kept
        = newMessages)) :=
  ⟨by decide,
    turn_count_invariant_and_eviction dbOne "c1" "q" "resp" "chat_geral" 1 metaFix "t1"
      convFix (by decide)⟩

/-- C5: the history handed to generation is exactly the at-most-10 most recent
stored messages of the conversation in their stored (chronological, oldest
first) order, each reduced to its role/content pair; roles stay within
`{user, assistant}` whenever the stored conversation only holds such roles,
and the transform leaves the store unchanged. -/
theorem context_assembly_bounded_ordered (db : DB) (userId cid : String) (conv : Conversation)
    (huser : userId ≠ "") (hget : DB.get db userId cid = some conv) :
    (getConversationContext db userId cid).1.1
      = (conv.messages.drop (conv.messages.length - 10)).map
          (fun m => ({ role := m.role, content := m.content } : ChatMsg)) ∧
    (getConversationContext db userId cid).1.1.length ≤ 10 ∧
    conv.messages.take (conv.messages.length - 10)
        ++ conv.messages.drop (conv.messages.length - 10) = conv.messages ∧
    ((∀ m ∈ conv.messages, m.role = "user" ∨ m.role = "assistant") →
      ∀ h ∈ (getConversationContext db userId cid).1.1,
        h.role = "user" ∨ h.role = "assistant") ∧
    (getConversationContext db userId cid).2 = db := by
  have hbeq : (userId == "") = false := beq_eq_false_iff_ne.mpr huser
  have hmain : (getConversationContext db userId cid).1.1
      = (conv.messages.drop (conv.messages.length - 10)).map
          (fun m => ({ role := m.role, content := m.content } : ChatMsg)) := by
    simp only [getConversationContext, getConversationHistory, resolveUserId,
      Option.getD_some, hbeq, Bool.false_eq_true, if_false, hget]
    by_cases hlen : conv.messages.length > 10
    · simp only [ne_eq, OfNat.ofNat_ne_zero, not_false_eq_true, hlen, and_true, if_true,
        if_pos]
    · have hz : conv.messages.length - 10 = 0 := by omega
      simp only [hz, List.drop_zero]
      rw [if_neg]
      simp only [not_and]
      intro _
      omega
  refine ⟨hmain, ?_, List.take_append_drop _ _, ?_, rfl⟩
  · rw [hmain, List.length_map, List.length_drop]
    omega
  · intro hroles h hmem
    rw [hmain] at hmem
    rcases List.mem_map.mp hmem with ⟨m, hmdrop, hmeq⟩
    have hmm : m ∈ conv.messages := List.mem_of_mem_drop hmdrop
    rcases hroles m hmm with hr | hr <;> rw [← hmeq]
    · exact Or.inl hr
    · exact Or.inr hr

/-- Witness for C5: assembling the context of the concrete conversation
`convFix`. -/
theorem context_assembly_bounded_ordered_witness :
    ("u1" ≠ "") ∧ DB.get dbOne "u1" "c1" = some convFix ∧
    ((getConversationContext dbOne "u1" "c1").1.1
       = (convFix.messages.drop (convFix.messages.length - 10)).map
           (fun m => ({ role := m.role, content := m.content } : ChatMsg)) ∧
     (getConversationContext dbOne "u1" "c1").1.1.length ≤ 10 ∧
     convFix.messages.take (convFix.messages.length - 10)
         ++ convFix.messages.drop (convFix.messages.length - 10) = convFix.messages ∧
     ((∀ m ∈ convFix.messages, m.role = "user" ∨ m.role = "assistant") →
       ∀ h ∈ (getConversationContext dbOne "u1" "c1").1.1,
         h.role = "user" ∨ h.role = "assistant") ∧
     (getConversationContext dbOne "u1" "c1").2 = dbOne) :=
  ⟨by decide, by decide,
    context_assembly_bounded_ordered dbOne "u1" "c1" convFix (by decide) (by decide)⟩

/-- C4 counterexample: resolving the same unknown id twice on an empty store,
with both creations falling in the same second (equal formatted timestamps),
returns the same conversation id both times and leaves a single conversation —
the second `.set` overwrites the first — so the two resolutions do not create
two distinct fresh conversations as the claim states. -/
theorem resolve_unknown_twice_same_second_collides :
    (resolveConversation dbEmpty "u1" (some "garbage") "2025-01-01_00-00-00").1.conversationId
      = (resolveConversation (resolveConversation dbEmpty "u1" (some "garbage")
          "2025-01-01_00-00-00").2 "u1" (some "garbage") "2025-01-01_00-00-00").1.conversationId ∧
    (resolveConversation (resolveConversation dbEmpty "u1" (some "garbage")
        "2025-01-01_00-00-00").2 "u1" (some "garbage") "2025-01-01_00-00-00").2
      = [(("u1", "2025-01-01_00-00-00"), novaConversa "u1" "2025-01-01_00-00-00")] := by
  decide

/-- C4 (amended): a supplied id whose metadata is found is reused with
`is_new = false`, idempotently, leaving the store untouched; an unknown (or
absent) id leads to creating a fresh conversation with the default title
"Nova Conversa"; resolving the same unknown id twice creates a fresh
conversation each time, and the two conversations are distinct provided the
two creation timestamps differ and the unknown id is not itself the generated
timestamp id (ids are timestamp-derived, so creations within the same
formatted second collide, the second overwriting the first). -/
theorem conversation_resolution_self_healing (db : DB) (userId cid now1 now2 : String)
    (huser : userId ≠ "") (hcid : cid ≠ "") :
    (∀ conv, DB.get db userId cid = some conv →
       resolveConversation db userId (some cid) now1
         = ({ conversationId := cid, isNew := false }, db) ∧
       resolveConversation db userId (some cid) now2
         = ({ conversationId := cid, isNew := false }, db)) ∧
    (DB.get db userId cid = none → cid ≠ now1 → now1 ≠ now2 →
       resolveConversation db userId (some cid) now1
         = ({ conversationId := now1, isNew := true },
            DB.set db userId now1 (novaConversa userId now1)) ∧
       resolveConversation (DB.set db userId now1 (novaConversa userId now1))
           userId (some cid) now2
         = ({ conversationId := now2, isNew := true },
            DB.set (DB.set db userId now1 (novaConversa userId now1)) userId now2
              (novaConversa userId now2)) ∧
       now1 ≠ now2 ∧
       DB.get (DB.set (DB.set db userId now1 (novaConversa userId now1)) userId now2
           (novaConversa userId now2)) userId now1 = some (novaConversa userId now1) ∧
       DB.get (DB.set (DB.set db userId now1 (novaConversa userId now1)) userId now2
           (novaConversa userId now2)) userId now2 = some (novaConversa userId now2)) ∧
    (resolveConversation db userId none now1
       = ({ conversationId := now1, isNew := true },
          DB.set db userId now1 (novaConversa userId now1))) := by
  have hbequ : (userId == "") = false := beq_eq_false_iff_ne.mpr huser
  have hbeqc : (cid == "") = false := beq_eq_false_iff_ne.mpr hcid
  refine ⟨?_, ?_, ?_⟩
  · intro conv hconv
    have hmeta : (getConversationMetadata db cid (some userId)).isSome = true := by
      simp [getConversationMetadata, resolveUserId, hbequ, hconv]
    rcases hmopt : getConversationMetadata db cid (some userId) with _ | m
    · rw [hmopt] at hmeta
      simp at hmeta
    · constructor <;> simp [resolveConversation, hbeqc, hmopt]
  · intro h0 hne hts
    have hmeta : getConversationMetadata db cid (some userId) = none := by
      simp [getConversationMetadata, resolveUserId, hbequ, h0]
    have hr1 : resolveConversation db userId (some cid) now1
        = ({ conversationId := now1, isNew := true },
           DB.set db userId now1 (novaConversa userId now1)) := by
      simp [resolveConversation, hbeqc, hmeta, createConversation, novaConversa]
    have hkey1 : (userId == userId && now1 == cid) = false :=
      Bool.and_eq_false_iff.mpr (Or.inr (beq_eq_false_iff_ne.mpr (fun e => hne e.symm)))
    have h0' : DB.get (DB.set db userId now1 (novaConversa userId now1)) userId cid
        = none := by
      rw [DB.get_set_ne _ _ hkey1]
      exact h0
    have hmeta1 : getConversationMetadata (DB.set db userId now1 (novaConversa userId now1))
        cid (some userId) = none := by
      simp [getConversationMetadata, resolveUserId, hbequ, h0']
    have hr2 : resolveConversation (DB.set db userId now1 (novaConversa userId now1))
        userId (some cid) now2
        = ({ conversationId := now2, isNew := true },
           DB.set (DB.set db userId now1 (novaConversa userId now1)) userId now2
             (novaConversa userId now2)) := by
      simp only [resolveConversation, hbeqc, Bool.false_eq_true, if_false, hmeta1]
      simp [createConversation, novaConversa]
    have hkey2 : (userId == userId && now2 == now1) = false :=
      Bool.and_eq_false_iff.mpr (Or.inr (beq_eq_false_iff_ne.mpr (fun e => hts e.symm)))
    refine ⟨hr1, hr2, hts, ?_, DB.get_set_self _ _ _ _⟩
    rw [DB.get_set_ne _ _ hkey2, DB.get_set_self]
  · simp [resolveConversation, createConversation, novaConversa]

/-- Witness for C4 at a concrete store: the unknown id "c1" resolved twice on
the empty store at timestamps "t1" then "t2". -/
theorem conversation_resolution_self_healing_witness :
    ("u1" ≠ "") ∧ ("c1" ≠ "") ∧
    ((∀ conv, DB.get dbEmpty "u1" "c1" = some conv →
        resolveConversation dbEmpty "u1" (some "c1") "t1"
          = ({ conversationId := "c1", isNew := false }, dbEmpty) ∧
        resolveConversation dbEmpty "u1" (some "c1") "t2"
          = ({ conversationId := "c1", isNew := false }, dbEmpty)) ∧
     (DB.get dbEmpty "u1" "c1" = none → "c1" ≠ "t1" → "t1" ≠ "t2" →
        resolveConversation dbEmpty "u1" (some "c1") "t1"
          = ({ conversationId := "t1", isNew := true },
             DB.set dbEmpty "u1" "t1" (novaConversa "u1" "t1")) ∧
        resolveConversation (DB.set dbEmpty "u1" "t1" (novaConversa "u1" "t1"))
            "u1" (some "c1") "t2"
          = ({ conversationId := "t2", isNew := true },
             DB.set (DB.set dbEmpty "u1" "t1" (novaConversa "u1" "t1")) "u1" "t2"
               (novaConversa "u1" "t2")) ∧
        "t1" ≠ "t2" ∧
        DB.get (DB.set (DB.set dbEmpty "u1" "t1" (novaConversa "u1" "t1")) "u1" "t2"
            (novaConversa "u1" "t2")) "u1" "t1" = some (novaConversa "u1" "t1") ∧
        DB.get (DB.set (DB.set dbEmpty "u1" "t1" (novaConversa "u1" "t1")) "u1" "t2"
            (novaConversa "u1" "t2")) "u1" "t2" = some (novaConversa "u1" "t2")) ∧
     (resolveConversation dbEmpty "u1" none "t1"
        = ({ conversationId := "t1", isNew := true },
           DB.set dbEmpty "u1" "t1" (novaConversa "u1" "t1")))) :=
  ⟨by decide, by decide,
    conversation_resolution_self_healing dbEmpty "u1" "c1" "t1" "t2"
      (by decide) (by decide)⟩

/-- Reading a conversation's history leaves the store unchanged. -/
theorem getConversationContext_snd (db : DB) (u c : String) :
    (getConversationContext db u c).2 = db := rfl

/-- Resolution with no supplied id creates a fresh default conversation. -/
theorem resolve_none_eq (db : DB) (userId now : String) :
    resolveConversation db userId none now
      = ({ conversationId := now, isNew := true },
         DB.set db userId now (novaConversa userId now)) := by
  simp [resolveConversation, createConversation, novaConversa]

/-- Resolution with an empty-string id (falsy in Python) also creates. -/
theorem resolve_empty_eq (db : DB) (userId now : String) :
    resolveConversation db userId (some "") now
      = ({ conversationId := now, isNew := true },
         DB.set db userId now (novaConversa userId now)) := by
  simp [resolveConversation, createConversation, novaConversa]

/-- Resolution with an id whose metadata is not found creates a fresh
conversation. -/
theorem resolve_unknown_eq (db : DB) (userId cid now : String) (hcid : cid ≠ "")
    (hmeta : getConversationMetadata db cid (some userId) = none) :
    resolveConversation db userId (some cid) now
      = ({ conversationId := now, isNew := true },
         DB.set db userId now (novaConversa userId now)) := by
  have hbeqc : (cid == "") = false := beq_eq_false_iff_ne.mpr hcid
  simp only [resolveConversation, hbeqc, Bool.false_eq_true, if_false, hmeta]
  simp [createConversation, novaConversa]

/-- Resolution with an id whose metadata is found reuses it untouched. -/
theorem resolve_known_eq (db : DB) (userId cid now : String) (m : ConvMeta)
    (hcid : cid ≠ "") (hmeta : getConversationMetadata db cid (some userId) = some m) :
    resolveConversation db userId (some cid) now
      = ({ conversationId := cid, isNew := false }, db) := by
  have hbeqc : (cid == "") = false := beq_eq_false_iff_ne.mpr hcid
  simp [resolveConversation, hbeqc, hmeta]

/-- With a non-empty user id the metadata lookup is the scoped document read. -/
theorem metadata_some_user (db : DB) (cid userId : String) (huser : userId ≠ "") :
    getConversationMetadata db cid (some userId)
      = (DB.get db userId cid).map (fun conv =>
          { conversationId := conv.conversationId, title := conv.title, ctype := conv.ctype,
            createdAt := conv.createdAt, updatedAt := conv.updatedAt,
            userId := conv.userId, messageCount := conv.messageCount }) := by
  have hbequ : (userId == "") = false := beq_eq_false_iff_ne.mpr huser
  simp [getConversationMetadata, resolveUserId, hbequ]

/-- After resolution the resolved conversation exists in the store. -/
theorem resolve_yields_conversation (db : DB) (userId : String) (cid? : Option String)
    (now : String) (huser : userId ≠ "") :
    ∃ conv, DB.get (resolveConversation db userId cid? now).2 userId
      (resolveConversation db userId cid? now).1.conversationId = some conv := by
  match cid? with
  | none =>
    rw [resolve_none_eq]
    exact ⟨novaConversa userId now, DB.get_set_self _ _ _ _⟩
  | some cid =>
    by_cases hcid : cid = ""
    · subst hcid
      rw [resolve_empty_eq]
      exact ⟨novaConversa userId now, DB.get_set_self _ _ _ _⟩
    · cases hm : getConversationMetadata db cid (some userId) with
      | none =>
        rw [resolve_unknown_eq db userId cid now hcid hm]
        exact ⟨novaConversa userId now, DB.get_set_self _ _ _ _⟩
      | some m =>
        rw [resolve_known_eq db userId cid now m hcid hm]
        rw [metadata_some_user db cid userId huser] at hm
        rcases Option.map_eq_some'.mp hm with ⟨conv, hconv, _⟩
        exact ⟨conv, hconv⟩

/-- When every generation call fails, the chat handler answers with the fixed
apology, an error type, no sources and no knowledge. -/
theorem handle_fail_apology (vsm : VSM) (sim : Sim) (llm : LLM) (message : String)
    (ctx : List ChatMsg) (hfail : ∀ c, ∃ e, llm c = .err e) :
    (handleChatGeralAgent vsm sim llm message ctx).1.content = apologyMsg ∧
    (handleChatGeralAgent vsm sim llm message ctx).1.rtype = "error" ∧
    (handleChatGeralAgent vsm sim llm message ctx).1.sources = [] ∧
    (handleChatGeralAgent vsm sim llm message ctx).1.knowledgeUsed = false := by
  unfold handleChatGeralAgent
  dsimp only
  refine ⟨?_, ?_, ?_, ?_⟩ <;>
  · split
    · next content heq =>
      rcases hfail _ with ⟨e, he⟩
      rw [he] at heq
      cases heq
    · rfl

/-- A successful `add_message_with_intent` ends the stored list with the
assistant message carrying the given content and the augmented metadata. -/
theorem addMessage_persists_last (db : DB)
    (cid userMessage assistantResponse detectedIntent : String)
    (intentConfidence : Rat) (metadata : TurnMeta) (now : String) (conv : Conversation)
    (hget : DB.get db metadata.userId cid = some conv) :
    (addMessageWithIntent db cid userMessage assistantResponse detectedIntent
        intentConfidence metadata now).1 = true ∧
    ∃ conv', DB.get (addMessageWithIntent db cid userMessage assistantResponse detectedIntent
        intentConfidence metadata now).2 metadata.userId cid = some conv' ∧
      ∃ m, conv'.messages.getLast? = some m ∧ m.role = "assistant" ∧
        m.content = assistantResponse ∧
        m.metadata = some { metadata with
          detectedIntent := if detectedIntent == "" then metadata.detectedIntent
                            else some detectedIntent,
          intentConfidence := some intentConfidence } := by
  simp only [addMessageWithIntent, hget]
  set userMsg : StoredMsg :=
    { timestamp := now, role := "user", content := userMessage, metadata := none } with hu
  set assistantMsg : StoredMsg :=
    { timestamp := now, role := "assistant", content := assistantResponse,
      metadata := some { metadata with
        detectedIntent := if detectedIntent == "" then metadata.detectedIntent
                          else some detectedIntent,
        intentConfidence := some intentConfidence } } with ha
  set newMessages := conv.messages ++ [userMsg, assistantMsg] with hm
  have hlast : newMessages.getLast? = some assistantMsg := by
    rw [hm, show conv.messages ++ [userMsg, assistantMsg]
        = (conv.messages ++ [userMsg]) ++ [assistantMsg] by simp]
    exact List.getLast?_concat _
  by_cases hlen : newMessages.length > maxMessagesPerConversation
  · simp only [if_pos hlen]
    refine ⟨trivial, _, DB.get_set_self _ _ _ _, assistantMsg, ?_, rfl, rfl, rfl⟩
    rw [getLast?_drop _ _ (by simp only [maxMessagesPerConversation] at hlen ⊢; omega), hlast]
  · simp only [if_neg hlen]
    exact ⟨trivial, _, DB.get_set_self _ _ _ _, assistantMsg, hlast, rfl, rfl, rfl⟩

/-- C6: whenever the Generation Provider fails, the process call still returns
its structured success with the fixed user-facing apology as content — a
constant string independent of the provider's error text — and the persisted
turn ends with an assistant message whose content is that non-empty apology. -/
theorem graceful_degradation (db : DB) (vsm : VSM) (sim : Sim) (llm : LLM)
    (userId message : String) (conversationId : Option String) (now : String)
    (huser : userId ≠ "") (hfail : ∀ c, ∃ e, llm c = .err e) :
    (processQuery db vsm sim llm userId message conversationId now).1.success = true ∧
    (processQuery db vsm sim llm userId message conversationId now).1.content = apologyMsg ∧
    apologyMsg ≠ "" ∧
    ∃ conv', DB.get (processQuery db vsm sim llm userId message conversationId now).2.1 userId
        (processQuery db vsm sim llm userId message conversationId now).1.conversationId
        = some conv' ∧
      ∃ m, conv'.messages.getLast? = some m ∧ m.role = "assistant" ∧
        m.content = apologyMsg ∧ m.content ≠ "" := by
  obtain ⟨conv, hconv⟩ := resolve_yields_conversation db userId conversationId now huser
  have hhandle := handle_fail_apology vsm sim llm message
    (getConversationContext (resolveConversation db userId conversationId now).2 userId
      (resolveConversation db userId conversationId now).1.conversationId).1.1 hfail
  unfold processQuery
  dsimp only
  rw [getConversationContext_snd]
  refine ⟨rfl, hhandle.1, by decide, ?_⟩
  have hadd := addMessage_persists_last
    (resolveConversation db userId conversationId now).2
    (resolveConversation db userId conversationId now).1.conversationId
    message
    ((handleChatGeralAgent vsm sim llm message
      (getConversationContext (resolveConversation db userId conversationId now).2 userId
        (resolveConversation db userId conversationId now).1.conversationId).1.1).1.content)
    "chat_geral" 1
    { userId := userId, chatType := "general",
      knowledgeUsed := (handleChatGeralAgent vsm sim llm message
        (getConversationContext (resolveConversation db userId conversationId now).2 userId
          (resolveConversation db userId conversationId now).1.conversationId).1.1).1.knowledgeUsed,
      sources := pySetDedup (handleChatGeralAgent vsm sim llm message
        (getConversationContext (resolveConversation db userId conversationId now).2 userId
          (resolveConversation db userId conversationId now).1.conversationId).1.1).1.sources,
      detectedIntent := none, intentConfidence := none }
    now conv hconv
  obtain ⟨-, conv', hcget, m, hlast, hrole, hcontent, -⟩ := hadd
  exact ⟨conv', hcget, m, hlast, hrole, by rw [hcontent, hhandle.1],
    by rw [hcontent, hhandle.1]; decide⟩

/-- Witness for C6: a process call on the empty store with a provider that
always fails. -/
theorem graceful_degradation_witness :
    ("u1" ≠ "") ∧ (∀ c, ∃ e, llmDown c = LlmResult.err e) ∧
    ((processQuery dbEmpty vsmEmpty simNine llmDown "u1" "q" none "t1").1.success = true ∧
     (processQuery dbEmpty vsmEmpty simNine llmDown "u1" "q" none "t1").1.content = apologyMsg ∧
     apologyMsg ≠ "" ∧
     ∃ conv', DB.get (processQuery dbEmpty vsmEmpty simNine llmDown "u1" "q" none "t1").2.1 "u1"
         (processQuery dbEmpty vsmEmpty simNine llmDown "u1" "q" none "t1").1.conversationId
         = some conv' ∧
       ∃ m, conv'.messages.getLast? = some m ∧ m.role = "assistant" ∧
         m.content = apologyMsg ∧ m.content ≠ "") :=
  ⟨by decide, fun c => ⟨"boom", rfl⟩,
    graceful_degradation dbEmpty vsmEmpty simNine llmDown "u1" "q" none "t1"
      (by decide) (fun c => ⟨"boom", rfl⟩)⟩

/-- C7: searching a collection with no persisted data returns the structured
not-found failure instead of raising; the orchestrator then proceeds with
`knowledge_used = false` through the plain chat template, and the process call
still returns success. -/
theorem absent_collection_not_found (db : DB) (vsm : VSM) (sim : Sim) (llm : LLM)
    (userId message : String) (conversationId : Option String) (now : String)
    (hdisk : vsm.disk.find? (fun e => e.1 == "main") = none)
    (hcache : vsm.cache.find? (fun e => e.1 == "main") = none) :
    (search vsm sim "main" message 5).1
      = .err ("Collection '" ++ "main" ++ "' não encontrada") ∧
    (∀ ctx, (handleChatGeralAgent vsm sim llm message ctx).1.knowledgeUsed = false ∧
       (handleChatGeralAgent vsm sim llm message ctx).1.llmCall
         = .chatResponse message ctx "general") ∧
    (processQuery db vsm sim llm userId message conversationId now).1.success = true ∧
    (processQuery db vsm sim llm userId message conversationId now).1.knowledgeUsed = false := by
  have hstore : getStore vsm "main" = (none, loadStore vsm "main") := by
    simp [getStore, hcache, diskFind, hdisk]
  have hsearch : search vsm sim "main" message 5
      = (.err ("Collection '" ++ "main" ++ "' não encontrada"), loadStore vsm "main") := by
    simp [search, hstore]
  have hhandle : ∀ ctx, (handleChatGeralAgent vsm sim llm message ctx).1.knowledgeUsed = false ∧
      (handleChatGeralAgent vsm sim llm message ctx).1.llmCall
        = .chatResponse message ctx "general" := by
    intro ctx
    unfold handleChatGeralAgent
    rw [hsearch]
    dsimp only
    cases hl : llm (LlmCall.chatResponse message ctx "general") <;> simp [hl]
  refine ⟨by rw [hsearch], hhandle, ?_, ?_⟩
  · rfl
  · unfold processQuery
    dsimp only
    exact (hhandle _).1

/-- Witness for C7: a process call against the empty vector store. -/
theorem absent_collection_not_found_witness :
    (vsmEmpty.disk.find? (fun e => e.1 == "main") = none) ∧
    (vsmEmpty.cache.find? (fun e => e.1 == "main") = none) ∧
    ((search vsmEmpty simNine "main" "q" 5).1
       = SearchResult.err ("Collection '" ++ "main" ++ "' não encontrada") ∧
     (∀ ctx, (handleChatGeralAgent vsmEmpty simNine llmEcho "q" ctx).1.knowledgeUsed = false ∧
        (handleChatGeralAgent vsmEmpty simNine llmEcho "q" ctx).1.llmCall
          = LlmCall.chatResponse "q" ctx "general") ∧
     (processQuery dbEmpty vsmEmpty simNine llmEcho "u1" "q" none "t1").1.success = true ∧
     (processQuery dbEmpty vsmEmpty simNine llmEcho "u1" "q" none "t1").1.knowledgeUsed
       = false) :=
  ⟨rfl, rfl,
    absent_collection_not_found dbEmpty vsmEmpty simNine llmEcho "u1" "q" none "t1" rfl rfl⟩

/-- C8: the sources list of the returned metadata contains each label at most
once, the persisted turn metadata carries that same deduplicated list, and —
when the search succeeds with hits and generation succeeds — the sources are
exactly the deduplicated chunk source labels, a chunk without a source field
contributing the fixed fallback label "Base de conhecimento". -/
theorem sources_deduplicated_with_fallback (db : DB) (vsm : VSM) (sim : Sim) (llm : LLM)
    (userId message : String) (conversationId : Option String) (now : String)
    (huser : userId ≠ "") :
    (processQuery db vsm sim llm userId message conversationId now).1.sources.Nodup ∧
    (∃ conv', DB.get (processQuery db vsm sim llm userId message conversationId now).2.1 userId
        (processQuery db vsm sim llm userId message conversationId now).1.conversationId
        = some conv' ∧
      ∃ m meta2, conv'.messages.getLast? = some m ∧ m.metadata = some meta2 ∧
        meta2.sources = (processQuery db vsm sim llm userId message conversationId now).1.sources) ∧
    ((∀ c, ∃ s, llm c = .ok s) →
      ∀ results, (search vsm sim "main" message 5).1 = .ok results → results ≠ [] →
        (processQuery db vsm sim llm userId message conversationId now).1.sources
          = pySetDedup (sourceLabels results) ∧
        (∀ s, s ∈ (processQuery db vsm sim llm userId message conversationId now).1.sources
          ↔ s ∈ sourceLabels results) ∧
        (∀ r ∈ results, r.source = none →
          "Base de conhecimento"
            ∈ (processQuery db vsm sim llm userId message conversationId now).1.sources)) := by
  obtain ⟨conv, hconv⟩ := resolve_yields_conversation db userId conversationId now huser
  refine ⟨?_, ?_, ?_⟩
  · unfold processQuery
    dsimp only
    exact List.nodup_dedup _
  · have hadd := addMessage_persists_last
      (resolveConversation db userId conversationId now).2
      (resolveConversation db userId conversationId now).1.conversationId
      message
      ((handleChatGeralAgent vsm sim llm message
        (getConversationContext (resolveConversation db userId conversationId now).2 userId
          (resolveConversation db userId conversationId now).1.conversationId).1.1).1.content)
      "chat_geral" 1
      { userId := userId, chatType := "general",
        knowledgeUsed := (handleChatGeralAgent vsm sim llm message
          (getConversationContext (resolveConversation db userId conversationId now).2 userId
            (resolveConversation db userId conversationId now).1.conversationId).1.1).1.knowledgeUsed,
        sources := pySetDedup (handleChatGeralAgent vsm sim llm message
          (getConversationContext (resolveConversation db userId conversationId now).2 userId
            (resolveConversation db userId conversationId now).1.conversationId).1.1).1.sources,
        detectedIntent := none, intentConfidence := none }
      now conv hconv
    obtain ⟨-, conv', hcget, m, hlast, hrole, hcontent, hmeta⟩ := hadd
    unfold processQuery
    dsimp only
    rw [getConversationContext_snd]
    exact ⟨conv', hcget, m, _, hlast, hmeta, rfl⟩
  · intro hok results hres hne
    have hie : results.isEmpty = false := by simp [hne]
    have hhs : ∀ ctx, (handleChatGeralAgent vsm sim llm message ctx).1.sources
        = sourceLabels results := by
      intro ctx
      unfold handleChatGeralAgent
      dsimp only
      rw [hres]
      simp only [hie, Bool.not_false, if_true]
      rcases hok (LlmCall.withKnowledge message (knowledgeBlock results) ctx) with ⟨s, hs⟩
      rw [hs]
    have hmainsrc : (processQuery db vsm sim llm userId message conversationId now).1.sources
        = pySetDedup (sourceLabels results) := by
      unfold processQuery
      dsimp only
      rw [hhs]
    refine ⟨hmainsrc, ?_, ?_⟩
    · intro s
      rw [hmainsrc]
      exact List.mem_dedup
    · intro r hr hnone
      rw [hmainsrc]
      refine List.mem_dedup.mpr ?_
      refine List.mem_map.mpr ⟨r, hr, ?_⟩
      rw [hnone]
      rfl

/-- Witness for C8: a process call over the `main` collection holding two
chunks sharing one source label plus a chunk without a source field. -/
theorem sources_deduplicated_with_fallback_witness :
    ("u1" ≠ "") ∧
    ((processQuery dbEmpty vsmMulti simHalf llmEcho "u1" "q" none "t1").1.sources.Nodup ∧
     (∃ conv', DB.get (processQuery dbEmpty vsmMulti simHalf llmEcho "u1" "q" none "t1").2.1 "u1"
         (processQuery dbEmpty vsmMulti simHalf llmEcho "u1" "q" none "t1").1.conversationId
         = some conv' ∧
       ∃ m meta2, conv'.messages.getLast? = some m ∧ m.metadata = some meta2 ∧
         meta2.sources
           = (processQuery dbEmpty vsmMulti simHalf llmEcho "u1" "q" none "t1").1.sources) ∧
     ((∀ c, ∃ s, llmEcho c = LlmResult.ok s) →
       ∀ results, (search vsmMulti simHalf "main" "q" 5).1 = .ok results → results ≠ [] →
         (processQuery dbEmpty vsmMulti simHalf llmEcho "u1" "q" none "t1").1.sources
           = pySetDedup (sourceLabels results) ∧
         (∀ s, s ∈ (processQuery dbEmpty vsmMulti simHalf llmEcho "u1" "q" none "t1").1.sources
           ↔ s ∈ sourceLabels results) ∧
         (∀ r ∈ results, r.source = none →
           "Base de conhecimento"
             ∈ (processQuery dbEmpty vsmMulti simHalf llmEcho "u1" "q" none "t1").1.sources))) :=
  ⟨by decide,
    sources_deduplicated_with_fallback dbEmpty vsmMulti simHalf llmEcho "u1" "q" none "t1"
      (by decide)⟩

/-- C10: a conversation id existing only under another user's namespace is not
found by the requesting user's scoped metadata lookup; a fresh conversation is
created for the requesting user, the context assembled for it is empty (none
of the other user's messages are loaded), and the other user's conversation
document is unchanged after the whole process call. -/
theorem cross_user_isolation (db : DB) (vsm : VSM) (sim : Sim) (llm : LLM)
    (userA userB cid message now : String) (convB : Conversation)
    (hA : userA ≠ "") (hAB : userA ≠ userB) (hcid : cid ≠ "")
    (hnotA : DB.get db userA cid = none) (hB : DB.get db userB cid = some convB) :
    getConversationMetadata db cid (some userA) = none ∧
    (resolveConversation db userA (some cid) now).1.isNew = true ∧
    (resolveConversation db userA (some cid) now).1.conversationId = now ∧
    DB.get (resolveConversation db userA (some cid) now).2 userB cid = some convB ∧
    (getConversationContext (resolveConversation db userA (some cid) now).2 userA
        (resolveConversation db userA (some cid) now).1.conversationId).1.1 = [] ∧
    DB.get (processQuery db vsm sim llm userA message (some cid) now).2.1 userB cid
      = some convB := by
  have hmeta : getConversationMetadata db cid (some userA) = none := by
    rw [metadata_some_user db cid userA hA, hnotA]
    rfl
  have hr : resolveConversation db userA (some cid) now
      = ({ conversationId := now, isNew := true },
         DB.set db userA now (novaConversa userA now)) :=
    resolve_unknown_eq db userA cid now hcid hmeta
  have hkeyB : (userA == userB && now == cid) = false :=
    Bool.and_eq_false_iff.mpr (Or.inl (beq_eq_false_iff_ne.mpr hAB))
  have hgetB : DB.get (DB.set db userA now (novaConversa userA now)) userB cid
      = some convB := by
    rw [DB.get_set_ne _ _ hkeyB]
    exact hB
  have hbeqA : (userA == "") = false := beq_eq_false_iff_ne.mpr hA
  refine ⟨hmeta, by rw [hr], by rw [hr], by rw [hr]; exact hgetB, ?_, ?_⟩
  · rw [hr]
    dsimp only
    simp [getConversationContext, getConversationHistory, resolveUserId, hbeqA,
      DB.get_set_self, novaConversa]
  · unfold processQuery
    dsimp only
    rw [getConversationContext_snd, hr]
    dsimp only
    have hget1 : DB.get (DB.set db userA now (novaConversa userA now)) userA now
        = some (novaConversa userA now) := DB.get_set_self _ _ _ _
    simp only [addMessageWithIntent, hget1]
    simp only [novaConversa, List.nil_append]
    rw [if_neg (by simp [maxMessagesPerConversation])]
    rw [DB.get_set_ne _ _ hkeyB]
    exact hgetB

/-- Witness for C10: user `u1` supplies the id "c2" that exists only under
user `u2`. -/
theorem cross_user_isolation_witness :
    ("u1" ≠ "") ∧ ("u1" ≠ "u2") ∧ ("c2" ≠ "") ∧
    DB.get dbOther "u1" "c2" = none ∧ DB.get dbOther "u2" "c2" = some convFix ∧
    (getConversationMetadata dbOther "c2" (some "u1") = none ∧
     (resolveConversation dbOther "u1" (some "c2") "t1").1.isNew = true ∧
     (resolveConversation dbOther "u1" (some "c2") "t1").1.conversationId = "t1" ∧
     DB.get (resolveConversation dbOther "u1" (some "c2") "t1").2 "u2" "c2" = some convFix ∧
     (getConversationContext (resolveConversation dbOther "u1" (some "c2") "t1").2 "u1"
         (resolveConversation dbOther "u1" (some "c2") "t1").1.conversationId).1.1 = [] ∧
     DB.get (processQuery dbOther vsmEmpty simNine llmEcho "u1" "q" (some "c2") "t1").2.1
         "u2" "c2" = some convFix) :=
  ⟨by decide, by decide, by decide, by decide, by decide,
    cross_user_isolation dbOther vsmEmpty simNine llmEcho "u1" "u2" "c2" "q" "t1" convFix
      (by decide) (by decide) (by decide) (by decide) (by decide)⟩

end Otto
